import Mathlib

/-!
Shallow embedding of the data-query-api Flask application
(`src/app.py`, `src/gql_schema.py`, `src/models.py`) and proofs about it.

The application exposes:
  * `POST /upload`      (`upload_file`)   — store a file in S3, then enqueue an ETL job in SQS;
  * `POST /trigger_job` (`trigger_job`)   — re-enqueue an ETL job for an existing S3 key;
  * `GET /trips`        (`get_trips`)     — filtered listing of trip records;
  * `GET /trips/stats`  (`get_trip_stats`)— aggregate statistics over trip records;
  * a GraphQL endpoint  (`gql_schema.py`) — resolvers plus a custom `DateTime` scalar.

External collaborators (the boto3 S3/SQS clients, `werkzeug.secure_filename`,
`uuid4`) are modelled as explicit parameters: a `CloudBehavior` record decides
whether each cloud call succeeds or raises, the sanitizer is a function
parameter, and the fresh UUID strings are passed in by the caller.
-/

namespace TaxiApp

/-- Minimal JSON value type, used for response bodies (what `jsonify` produces)
and for SQS message bodies.  Numbers are modelled as rationals (sufficient
for the integer counts and the SQL `AVG` aggregate that appear here). -/
inductive Json where
  | null : Json
  | str (s : String) : Json
  | num (q : ℚ) : Json
  | arr (xs : List Json) : Json
  | obj (fields : List (String × Json)) : Json

/-- Field lookup in a JSON object (first match), `none` otherwise. -/
def Json.getField : Json → String → Option Json
  | .obj fields, k => fields.lookup k
  | _, _ => none

/-! ## The cloud model: S3 object store and SQS queue

`app.py` uses two boto3 clients: `s3_client.upload_fileobj(file, bucket, key)`
and `sqs_client.send_message(QueueUrl, MessageBody, MessageGroupId,
MessageDeduplicationId)`.  We model the world state they act on and let a
`CloudBehavior` record decide, per request, whether each call raises. -/

/-- One SQS message as submitted by `sqs_client.send_message`.  The code
serializes the body dict with `jsonify(...)`; we keep the body as a `Json`
value (the serialization is injective, so equality of bodies is equality of
the transmitted texts). -/
structure SqsMessage where
  queueUrl : String
  body : Json
  messageGroupId : String
  messageDeduplicationId : String

/-- State of the external cloud services: the set of S3 objects written
(key and content, in the configured bucket) and the list of SQS messages
accepted by the queue, in send order. -/
structure World where
  s3 : List (String × List Nat)
  sqs : List SqsMessage

/-- Per-request failure behavior of the two cloud clients: `some e` means the
corresponding call raises an exception whose string rendering is `e`
(`str(e)` in the handlers), `none` means it succeeds. -/
structure CloudBehavior where
  s3PutFail : Option String
  sqsSendFail : Option String

/-- The all-success behavior. -/
def CloudBehavior.ok : CloudBehavior := { s3PutFail := none, sqsSendFail := none }

/-- Modelled from the spec: the queue assigns each accepted message an id
(`sqs_response["MessageId"]`); messages with distinct deduplication tokens are
treated as distinct and receive distinct ids ("deduplicated ... message
submission", spec section 2; glossary on deduplication tokens).  We model the
assignment as an injective function of the deduplication token. -/
def assignMessageId (dedup : String) : String := "mid-" ++ dedup

/-- The object-store client call `s3_client.upload_fileobj(file, bucket, key)`:
either raises (per the behavior) leaving the world unchanged, or records the
object under its key. -/
def s3Upload (b : CloudBehavior) (w : World) (key : String) (content : List Nat) :
    Except String World :=
  match b.s3PutFail with
  | some e => .error e
  | none => .ok { w with s3 := w.s3 ++ [(key, content)] }

/-- The queue client call `sqs_client.send_message(...)`: either raises (per
the behavior), or appends the message and returns the queue-assigned id. -/
def sqsSend (b : CloudBehavior) (w : World) (msg : SqsMessage) :
    Except String (String × World) :=
  match b.sqsSendFail with
  | some e => .error e
  | none => .ok (assignMessageId msg.messageDeduplicationId, { w with sqs := w.sqs ++ [msg] })

/-! ## The upload handler (`upload_file`, app.py lines 207-298) -/

/-- One part of a multipart request: the client-supplied filename and the
binary content. -/
structure FilePart where
  filename : String
  content : List Nat

/-- The multipart request seen by `upload_file`: `none` models
`"file" not in request.files`. -/
structure UploadRequest where
  file : Option FilePart

/-- An HTTP response: status code and JSON body. -/
def HttpResponse := Nat × Json

/-- Embedding of `upload_file` (app.py lines 207-298).

Parameters standing for external collaborators:
  * `secure_filename` — werkzeug's sanitizer (an external library call);
  * `uploadUuid` — the `uuid4()` drawn at line 267 for the storage key;
  * `dedupUuid` — the `uuid4()` drawn at line 287 for `MessageDeduplicationId`;
  * `bucket`, `queueUrl` — the `S3_BUCKET` / `SQS_QUEUE_URL` configuration;
  * `b` — the failure behavior of the two cloud calls.

Returns the HTTP response together with the resulting cloud world.  The two
validation rejections happen before the `try` block; everything inside the
`try` that raises is caught and turned into a 500 JSON envelope, so this
handler never propagates an exception. -/
def upload_file (secure_filename : String → String) (uploadUuid dedupUuid : String)
    (bucket queueUrl : String) (b : CloudBehavior) (req : UploadRequest) (w : World) :
    HttpResponse × World :=
  match req.file with
  | none => ((400, Json.obj [("error", Json.str "No file part in the request")]), w)
  | some file =>
    if file.filename = "" then
      ((400, Json.obj [("error", Json.str "No file selected")]), w)
    else
      let original_filename := secure_filename file.filename
      let unique_filename := uploadUuid ++ "_" ++ original_filename
      match s3Upload b w unique_filename file.content with
      | .error e => ((500, Json.obj [("error", Json.str e)]), w)
      | .ok w1 =>
        let sqs_message := Json.obj
          [("s3_key", Json.str unique_filename),
           ("bucket_name", Json.str bucket),
           ("MessageGroupId", Json.str "ETL_JOB")]
        match sqsSend b w1
            { queueUrl := queueUrl, body := sqs_message,
              messageGroupId := "etl-job", messageDeduplicationId := dedupUuid } with
        | .error e => ((500, Json.obj [("error", Json.str e)]), w1)
        | .ok (msgId, w2) =>
          ((200, Json.obj
            [("message", Json.str "File uploaded and ETL job queued successfully!"),
             ("s3_key", Json.str unique_filename),
             ("sqs_message_id", Json.str msgId)]), w2)

/-! ## The trigger handler (`trigger_job`, app.py lines 300-365) -/

/-- Embedding of `trigger_job` (app.py lines 300-365).

The request body `request.json` is a JSON object, modelled as its field list.
Crucially, `data['s3_key']` is evaluated *before* the `try` block: if the key
is absent the `KeyError` escapes the handler, which we model with the outer
`Except` — `.error` means an exception propagated to the transport layer.
Everything raised inside the `try` block is caught and converted to a 500
JSON envelope. -/
def trigger_job (dedupUuid bucket queueUrl : String) (b : CloudBehavior)
    (data : List (String × Json)) (w : World) :
    Except String (HttpResponse × World) :=
  match data.lookup "s3_key" with
  | none => .error "KeyError: s3_key"
  | some s3_key =>
    let sqs_message := Json.obj
      [("s3_key", s3_key),
       ("bucket_name", Json.str bucket),
       ("MessageGroupId", Json.str "ETL_JOB")]
    match sqsSend b w
        { queueUrl := queueUrl, body := sqs_message,
          messageGroupId := "etl-job", messageDeduplicationId := dedupUuid } with
    | .error e => .ok ((500, Json.obj [("error", Json.str e)]), w)
    | .ok (msgId, w1) =>
      .ok ((200, Json.obj
        [("message", Json.str "ETL job queued successfully!"),
         ("s3_key", s3_key),
         ("sqs_message_id", Json.str msgId)]), w1)

/-- The message the upload handler enqueues in the concrete witness run used
for claim C1 below. -/
def witnessUploadMsg : SqsMessage :=
  { queueUrl := "qu",
    body := Json.obj
      [("s3_key", Json.str ("u" ++ "_" ++ "a.txt")),
       ("bucket_name", Json.str "bkt"),
       ("MessageGroupId", Json.str "ETL_JOB")],
    messageGroupId := "etl-job",
    messageDeduplicationId := "d" }

/-! ## Python datetime values (`datetime.datetime`, naive)

`gql_schema.py` serializes with `datetime.isoformat()` and parses with
`datetime.fromisoformat()`; `app.py` truncates and renders timestamps in
`get_trip_stats`.  We embed naive (timezone-free) datetimes, which is what
the database rows and the scalar round-trip involve. -/

/-- A naive Python `datetime`: year, month, day, hour, minute, second,
microsecond. -/
structure PyDateTime where
  year : Nat
  month : Nat
  day : Nat
  hour : Nat
  minute : Nat
  second : Nat
  microsecond : Nat
deriving DecidableEq

/-- Leap-year test, as in Python's `calendar.isleap` used by `datetime`. -/
def PyDateTime.leapYear (y : Nat) : Bool :=
  y % 4 = 0 && (!(y % 100 = 0) || y % 400 = 0)

/-- Days in a month, as validated by the `datetime` constructor. -/
def PyDateTime.daysInMonth (y m : Nat) : Nat :=
  if m = 2 then (if PyDateTime.leapYear y then 29 else 28)
  else if m = 4 ∨ m = 6 ∨ m = 9 ∨ m = 11 then 30
  else 31

/-- The field ranges the Python `datetime` constructor enforces
(`MINYEAR = 1`, `MAXYEAR = 9999`, valid month/day/time fields). -/
def PyDateTime.valid (dt : PyDateTime) : Prop :=
  1 ≤ dt.year ∧ dt.year ≤ 9999 ∧ 1 ≤ dt.month ∧ dt.month ≤ 12 ∧
  1 ≤ dt.day ∧ dt.day ≤ PyDateTime.daysInMonth dt.year dt.month ∧
  dt.hour ≤ 23 ∧ dt.minute ≤ 59 ∧ dt.second ≤ 59 ∧ dt.microsecond ≤ 999999

instance (dt : PyDateTime) : Decidable dt.valid := by
  unfold PyDateTime.valid
  infer_instance

/-- Numeric key realizing the chronological order on datetime values
(injective on valid values); used for the SQL `BETWEEN` comparison. -/
def PyDateTime.orderKey (dt : PyDateTime) : Nat :=
  (((((dt.year * 13 + dt.month) * 32 + dt.day) * 24 + dt.hour) * 60 + dt.minute)
    * 60 + dt.second) * 1000000 + dt.microsecond

/-- The decimal digit character for `n < 10`. -/
def digitChar (n : Nat) : Char := Char.ofNat (48 + n)

/-- Fixed-width decimal rendering: exactly `k` digits, most significant
first (zero padded), the rendering Python's `isoformat` uses for each
field. -/
def padDigits : Nat → Nat → List Char
  | 0, _ => []
  | k + 1, n => digitChar (n / 10 ^ k) :: padDigits k (n % 10 ^ k)

/-- The time portion of `datetime.isoformat()`: `HH:MM:SS`, with `.ffffff`
appended exactly when the microsecond field is nonzero. -/
def isoTimeChars (hh mi ss us : Nat) : List Char :=
  padDigits 2 hh ++ ':' :: padDigits 2 mi ++ ':' :: padDigits 2 ss
    ++ (if us = 0 then [] else '.' :: padDigits 6 us)

/-- `datetime.isoformat(sep)`: `YYYY-MM-DD` then the separator then the time
portion. -/
def isoChars (sep : Char) (dt : PyDateTime) : List Char :=
  padDigits 4 dt.year ++ '-' :: padDigits 2 dt.month ++ '-' :: padDigits 2 dt.day
    ++ sep :: isoTimeChars dt.hour dt.minute dt.second dt.microsecond

/-- `datetime.isoformat()` (separator `T`), the serializer used by the
`DateTime` scalar. -/
def PyDateTime.isoformat (dt : PyDateTime) : String := String.mk (isoChars 'T' dt)

/-- `str(datetime)`, i.e. `isoformat(sep=' ')`, used by `get_trip_stats` to
render the truncated day. -/
def PyDateTime.pyStr (dt : PyDateTime) : String := String.mk (isoChars ' ' dt)

/-- One decimal digit, or `none` if the character is not a digit. -/
def readDigit (c : Char) : Option Nat :=
  if 48 ≤ c.toNat ∧ c.toNat ≤ 57 then some (c.toNat - 48) else none

/-- Read exactly `k` decimal digits, accumulating onto `acc`; returns the
value and the remaining characters. -/
def readNat : Nat → Nat → List Char → Option (Nat × List Char)
  | 0, acc, cs => some (acc, cs)
  | _ + 1, _, [] => none
  | k + 1, acc, c :: cs =>
    match readDigit c with
    | some d => readNat k (acc * 10 + d) cs
    | none => none

/-- Construct a datetime if the fields pass the constructor's validation
(`datetime(...)` raises `ValueError` otherwise, which `fromisoformat`
propagates). -/
def mkValidDateTime (y mo dd hh mi ss us : Nat) : Option PyDateTime :=
  let dt : PyDateTime := ⟨y, mo, dd, hh, mi, ss, us⟩
  if dt.valid then some dt else none

/-- The time-string grammar of `datetime.fromisoformat` (CPython ≤ 3.10):
`HH[:MM[:SS[.fff[fff]]]]`, where the fraction must be exactly 3 or 6 digits.
Timezone offsets are not modelled (the serializer of naive datetimes never
emits them). -/
def parseIsoTime (cs : List Char) : Option (Nat × Nat × Nat × Nat) :=
  match readNat 2 0 cs with
  | none => none
  | some (hh, r1) =>
    match r1 with
    | [] => some (hh, 0, 0, 0)
    | c1 :: r2 =>
      if c1 = ':' then
        match readNat 2 0 r2 with
        | none => none
        | some (mi, r3) =>
          match r3 with
          | [] => some (hh, mi, 0, 0)
          | c2 :: r4 =>
            if c2 = ':' then
              match readNat 2 0 r4 with
              | none => none
              | some (ss, r5) =>
                match r5 with
                | [] => some (hh, mi, ss, 0)
                | c3 :: r6 =>
                  if c3 = '.' then
                    if r6.length = 6 then
                      match readNat 6 0 r6 with
                      | some (us, []) => some (hh, mi, ss, us)
                      | _ => none
                    else if r6.length = 3 then
                      match readNat 3 0 r6 with
                      | some (ms, []) => some (hh, mi, ss, ms * 1000)
                      | _ => none
                    else none
                  else none
            else none
      else none

/-- `datetime.fromisoformat` (CPython ≤ 3.10) on a character list: a
`YYYY-MM-DD` date, then optionally one separator character (any character)
and a time string; the parsed fields then go through the `datetime`
constructor's validation. -/
def fromisoformatChars (cs : List Char) : Option PyDateTime :=
  match readNat 4 0 cs with
  | none => none
  | some (y, r0) =>
    match r0 with
    | [] => none
    | c1 :: r1 =>
      if c1 = '-' then
        match readNat 2 0 r1 with
        | none => none
        | some (mo, r2) =>
          match r2 with
          | [] => none
          | c2 :: r3 =>
            if c2 = '-' then
              match readNat 2 0 r3 with
              | none => none
              | some (dd, r4) =>
                match r4 with
                | [] => mkValidDateTime y mo dd 0 0 0 0
                | _ :: r5 =>
                  match parseIsoTime r5 with
                  | none => none
                  | some (hh, mi, ss, us) => mkValidDateTime y mo dd hh mi ss us
            else none
      else none

/-- `datetime.fromisoformat` on a string. -/
def PyDateTime.fromisoformat (s : String) : Option PyDateTime :=
  fromisoformatChars s.data

/-- The `DateTime` scalar serializer (`serialize_datetime`,
gql_schema.py lines 42-46): `value.isoformat()`.  The `isinstance` guard is
vacuous in this typed embedding, where the input is a datetime by type. -/
def serialize_datetime (value : PyDateTime) : String := value.isoformat

/-- The `DateTime` scalar value parser (`parse_datetime`, gql_schema.py
lines 48-53): `datetime.fromisoformat`, with the `ValueError` replaced by
the scalar-coercion error message the resolver raises. -/
def parse_datetime (value : String) : Except String PyDateTime :=
  match PyDateTime.fromisoformat value with
  | some dt => .ok dt
  | none => .error "Invalid DateTime format. Expected ISO 8601 string."

/-! ## Trip records and the query service (`models.py`, `app.py`) -/

/-- A row of the `trips` table (`models.py` lines 12-25).  `vendor_id` is a
nullable foreign key; coordinates and distance are SQL floats, modelled as
rationals (the code only ever compares them for equality, it does no
arithmetic on them). -/
structure Trip where
  id : String
  vendor_id : Option Int
  pickup_datetime : PyDateTime
  dropoff_datetime : PyDateTime
  passenger_count : Int
  pickup_longitude : ℚ
  pickup_latitude : ℚ
  dropoff_longitude : ℚ
  dropoff_latitude : ℚ
  store_and_fwd_flag : Char
  trip_duration : Int
  trip_distance : ℚ
deriving DecidableEq

/-- Query parameters of `GET /trips` after conversion: `request.args.get`
yields `None` for an absent parameter, and an absent or empty (hence falsy)
parameter skips its filter, so each is modelled as an `Option` of its parsed
value (`float(...)` for the coordinates, the SQL datetime for the dates). -/
structure TripsQueryArgs where
  start_date : Option PyDateTime
  end_date : Option PyDateTime
  pickup_long : Option ℚ
  pickup_lat : Option ℚ

/-- SQL `x BETWEEN a AND b` on pickup datetimes (inclusive on both ends). -/
def betweenDT (a b t : PyDateTime) : Bool :=
  decide (a.orderKey ≤ t.orderKey) && decide (t.orderKey ≤ b.orderKey)

/-- Embedding of the query built by `get_trips` (app.py lines 132-153):
starting from all trips, the `BETWEEN` filter is added only when both dates
are supplied, and each coordinate equality filter is added when its
parameter is supplied. -/
def get_trips (args : TripsQueryArgs) (db : List Trip) : List Trip :=
  let q1 := db
  let q2 : List Trip := match args.start_date, args.end_date with
    | some s, some e => q1.filter (fun t => betweenDT s e t.pickup_datetime)
    | _, _ => q1
  let q3 : List Trip := match args.pickup_long with
    | some lng => q2.filter (fun t => decide (t.pickup_longitude = lng))
    | none => q2
  let q4 : List Trip := match args.pickup_lat with
    | some lat => q3.filter (fun t => decide (t.pickup_latitude = lat))
    | none => q3
  q4

/-- SQL `date_trunc('day', ts)`: the timestamp truncated to day
granularity. -/
def dateTruncDay (dt : PyDateTime) : PyDateTime :=
  ⟨dt.year, dt.month, dt.day, 0, 0, 0, 0⟩

/-- SQL `AVG(trip_duration)`: `NULL` (here `none`) over an empty relation,
otherwise the mean as an exact numeric value. -/
def avg_trip_duration (db : List Trip) : Option ℚ :=
  if db = [] then none
  else some ((db.map (fun t => (t.trip_duration : ℚ))).sum / (db.length : ℚ))

/-- The distinct truncated days of the relation, in first-occurrence order
(SQL `GROUP BY` / `COUNT(DISTINCT ...)` leave the order unspecified; the
embedding fixes one). -/
def distinctDays (db : List Trip) : List PyDateTime :=
  (db.map (fun t => dateTruncDay t.pickup_datetime)).dedup

/-- The `GROUP BY day` / `COUNT(id)` aggregation of `get_trip_stats`. -/
def trips_per_day (db : List Trip) : List (PyDateTime × Nat) :=
  (distinctDays db).map (fun day =>
    (day, (db.filter (fun t => decide (dateTruncDay t.pickup_datetime = day))).length))

/-- SQL `COUNT(DISTINCT date_trunc('day', pickup_datetime))`. -/
def total_days (db : List Trip) : Nat := (distinctDays db).length

/-- Embedding of `get_trip_stats` (app.py lines 157-205): the three
aggregates are computed independently and assembled into the JSON response;
`jsonify` renders the `None` average as JSON `null` and each grouped day as
`str(day)`.  None of the embedded aggregations can raise, so the handler's
`except` branch is unreachable here. -/
def get_trip_stats (db : List Trip) : HttpResponse :=
  (200, Json.obj
    [("average_trip_duration",
      match avg_trip_duration db with
      | none => Json.null
      | some q => Json.num q),
     ("total_days", Json.num (total_days db : ℚ)),
     ("trips_per_day", Json.arr ((trips_per_day db).map (fun p =>
        Json.obj [("date", Json.str p.1.pyStr),
                  ("total_trips", Json.num (p.2 : ℚ))])))])

/-! ## GraphQL resolvers (`gql_schema.py`) -/

/-- Python truthiness of an optional integer argument: `None` and `0` are
falsy, every other integer is truthy. -/
def pyTruthyOptInt : Option Int → Bool
  | none => false
  | some v => v != 0

/-- Embedding of `resolve_all_trips` (gql_schema.py lines 58-70): the vendor
filter is guarded by the *truthiness* of `vendor_id`, the time-range filter
by both dates being supplied, and then `limit`/`offset` pagination is
applied (SQL `LIMIT limit OFFSET offset`: skip `offset` rows, return at most
`limit`). -/
def resolve_all_trips (db : List Trip) (limit offset : Nat)
    (vendor_id : Option Int) (start_date end_date : Option PyDateTime) :
    List Trip :=
  let q1 := db
  let q2 := if pyTruthyOptInt vendor_id then
      q1.filter (fun t => decide (t.vendor_id = vendor_id))
    else q1
  let q3 : List Trip := match start_date, end_date with
    | some s, some e => q2.filter (fun t => betweenDT s e t.pickup_datetime)
    | _, _ => q2
  (q3.drop offset).take limit

/-! ## Helper lemmas on strings -/

/-- Right cancellation for string append. -/
theorem str_append_cancel_right (a b c : String) (h : a ++ c = b ++ c) : a = b := by
  cases a with
  | mk da =>
    cases b with
    | mk db =>
      cases c with
      | mk dc =>
        have hd : da ++ dc = db ++ dc := congrArg String.data h
        exact congrArg String.mk (List.append_cancel_right hd)

/-- Left cancellation for string append. -/
theorem str_append_cancel_left (p a b : String) (h : p ++ a = p ++ b) : a = b := by
  cases p with
  | mk dp =>
    cases a with
    | mk da =>
      cases b with
      | mk db =>
        have hd : dp ++ da = dp ++ db := congrArg String.data h
        exact congrArg String.mk (List.append_cancel_left hd)

/-- Two storage keys built from distinct fresh tokens and the same sanitized
filename are distinct. -/
theorem unique_filename_injective (u1 u2 s : String) (hu : u1 ≠ u2) :
    u1 ++ "_" ++ s ≠ u2 ++ "_" ++ s := by
  intro h
  exact hu (str_append_cancel_right u1 u2 ("_" ++ s)
    (by rwa [String.append_assoc, String.append_assoc] at h))

/-! ## Claim theorems about the upload and trigger handlers -/

/-- Claim C5: an upload request with no file field is answered with HTTP 400
and a JSON error body, and so is a request whose file has an empty filename;
in both cases the cloud world is unchanged — no object-store write and no
queue send occurs. -/
theorem upload_rejects_invalid_request
    (sf : String → String) (u d bucket qurl : String)
    (b : CloudBehavior) (req : UploadRequest) (w : World) :
    (req.file = none →
      upload_file sf u d bucket qurl b req w =
        ((400, Json.obj [("error", Json.str "No file part in the request")]), w)) ∧
    (∀ f, req.file = some f → f.filename = "" →
      upload_file sf u d bucket qurl b req w =
        ((400, Json.obj [("error", Json.str "No file selected")]), w)) := by
  constructor
  · intro hnone
    simp [upload_file, hnone]
  · intro f hf hname
    simp [upload_file, hf, hname]

/-- Claim C5 witness: both rejection branches at concrete requests. -/
theorem upload_rejects_invalid_request_witness :
    (upload_file id "u" "d" "bkt" "qu" CloudBehavior.ok ⟨none⟩ ⟨[], []⟩ =
      ((400, Json.obj [("error", Json.str "No file part in the request")]), ⟨[], []⟩)) ∧
    (upload_file id "u" "d" "bkt" "qu" CloudBehavior.ok ⟨some ⟨"", [7]⟩⟩ ⟨[], []⟩ =
      ((400, Json.obj [("error", Json.str "No file selected")]), ⟨[], []⟩)) :=
  ⟨(upload_rejects_invalid_request id "u" "d" "bkt" "qu"
      CloudBehavior.ok ⟨none⟩ ⟨[], []⟩).1 rfl,
   (upload_rejects_invalid_request id "u" "d" "bkt" "qu"
      CloudBehavior.ok ⟨some ⟨"", [7]⟩⟩ ⟨[], []⟩).2 ⟨"", [7]⟩ rfl rfl⟩

/-- Claim C1: write-before-notify ordering in the upload handler.  First, if
the object-store write fails (on a request that reaches it), the handler
answers 500 with the error envelope and the world is unchanged — in
particular no queue send is attempted.  Second, any message the request adds
to the queue references a storage key that is present in the object store
after the request, and its presence required the store write to have
succeeded. -/
theorem upload_write_before_notify
    (sf : String → String) (u d bucket qurl : String)
    (b : CloudBehavior) (req : UploadRequest) (w : World) :
    (∀ f e, req.file = some f → f.filename ≠ "" → b.s3PutFail = some e →
      upload_file sf u d bucket qurl b req w =
        ((500, Json.obj [("error", Json.str e)]), w)) ∧
    (∀ m, m ∈ (upload_file sf u d bucket qurl b req w).2.sqs → m ∉ w.sqs →
      b.s3PutFail = none ∧
      ∃ k c, m.body.getField "s3_key" = some (Json.str k) ∧
        (k, c) ∈ (upload_file sf u d bucket qurl b req w).2.s3) := by
  obtain ⟨pf, sf'⟩ := b
  constructor
  · intro f e hf hname hfail
    subst hfail
    simp [upload_file, hf, hname, s3Upload]
  · intro m hm hnew
    match hreq : req.file with
    | none =>
      simp [upload_file, hreq] at hm
      exact absurd hm hnew
    | some f =>
      by_cases hname : f.filename = ""
      · simp [upload_file, hreq, hname] at hm
        exact absurd hm hnew
      · match hpf : pf with
        | some e =>
          simp [upload_file, hreq, hname, s3Upload, hpf] at hm
          exact absurd hm hnew
        | none =>
          refine ⟨rfl, ?_⟩
          match hsf : sf' with
          | some e =>
            simp [upload_file, hreq, hname, s3Upload, sqsSend, hpf, hsf] at hm
            exact absurd hm hnew
          | none =>
            simp only [upload_file, s3Upload, sqsSend, hreq, hpf, hsf,
              if_neg hname] at hm ⊢
            rcases List.mem_append.mp hm with hold | hnewm
            · exact absurd hold hnew
            · rcases List.mem_singleton.mp hnewm with rfl
              exact ⟨u ++ "_" ++ sf f.filename, f.content,
                by simp [Json.getField, List.lookup],
                by simp⟩

/-- Claim C1 witness: a run where the store write fails yields the 500
envelope with the world untouched, and the message a successful run adds to
the queue references a key present in the store afterwards. -/
theorem upload_write_before_notify_witness :
    (upload_file id "u" "d" "bkt" "qu" ⟨some "boom", none⟩
        ⟨some ⟨"a.txt", [7]⟩⟩ ⟨[], []⟩ =
      ((500, Json.obj [("error", Json.str "boom")]), ⟨[], []⟩)) ∧
    (CloudBehavior.ok.s3PutFail = none ∧
      ∃ k c, witnessUploadMsg.body.getField "s3_key" = some (Json.str k) ∧
        (k, c) ∈ (upload_file id "u" "d" "bkt" "qu" CloudBehavior.ok
          ⟨some ⟨"a.txt", [7]⟩⟩ ⟨[], []⟩).2.s3) :=
  ⟨(upload_write_before_notify id "u" "d" "bkt" "qu" ⟨some "boom", none⟩
      ⟨some ⟨"a.txt", [7]⟩⟩ ⟨[], []⟩).1 ⟨"a.txt", [7]⟩ "boom" rfl
      (by decide) rfl,
   (upload_write_before_notify id "u" "d" "bkt" "qu" CloudBehavior.ok
      ⟨some ⟨"a.txt", [7]⟩⟩ ⟨[], []⟩).2 witnessUploadMsg
      (by simp [upload_file, s3Upload, sqsSend, CloudBehavior.ok, witnessUploadMsg])
      (by simp [List.not_mem_nil])⟩

/-- Claim C4: if the store write succeeds but the queue send fails, the
upload handler answers 500 with the error envelope, the freshly written
object is still in the object store, and the queue is unchanged — no
compensating deletion or rollback of the store write happens (the model has
no delete operation and the post-state retains the key). -/
theorem upload_no_rollback_on_queue_failure
    (sf : String → String) (u d bucket qurl : String)
    (b : CloudBehavior) (f : FilePart) (w : World) (e : String)
    (hname : f.filename ≠ "") (hput : b.s3PutFail = none)
    (hsend : b.sqsSendFail = some e) :
    upload_file sf u d bucket qurl b ⟨some f⟩ w =
      ((500, Json.obj [("error", Json.str e)]),
       { s3 := w.s3 ++ [(u ++ "_" ++ sf f.filename, f.content)], sqs := w.sqs }) := by
  simp [upload_file, s3Upload, sqsSend, hput, hsend, if_neg hname]

/-- Claim C4 witness: concrete run with a failing queue send. -/
theorem upload_no_rollback_on_queue_failure_witness :
    upload_file id "u" "d" "bkt" "qu" ⟨none, some "queue down"⟩
        ⟨some ⟨"a.txt", [7]⟩⟩ ⟨[], []⟩ =
      ((500, Json.obj [("error", Json.str "queue down")]),
       { s3 := [] ++ [("u" ++ "_" ++ id "a.txt", [7])], sqs := [] }) :=
  upload_no_rollback_on_queue_failure id "u" "d" "bkt" "qu"
    ⟨none, some "queue down"⟩ ⟨"a.txt", [7]⟩ ⟨[], []⟩ "queue down"
    (by decide) rfl rfl

/-- Claim C2: on a valid upload that succeeds, the storage key in the
response is exactly `<fresh-token>_<sanitized-filename>`; in particular it
ends with the sanitized original filename, and two runs with distinct fresh
tokens — even on the identical file — report distinct storage keys. -/
theorem upload_storage_key_format
    (sf : String → String) (u1 u2 d1 d2 bucket qurl : String)
    (f : FilePart) (w1 w2 : World) (hname : f.filename ≠ "") (hu : u1 ≠ u2) :
    ((upload_file sf u1 d1 bucket qurl CloudBehavior.ok ⟨some f⟩ w1).1.2.getField
        "s3_key" = some (Json.str (u1 ++ "_" ++ sf f.filename))) ∧
    (∃ p, u1 ++ "_" ++ sf f.filename = p ++ sf f.filename) ∧
    ((upload_file sf u1 d1 bucket qurl CloudBehavior.ok ⟨some f⟩ w1).1.2.getField
        "s3_key" ≠
      (upload_file sf u2 d2 bucket qurl CloudBehavior.ok ⟨some f⟩ w2).1.2.getField
        "s3_key") := by
  have hbody : ∀ u d w, (upload_file sf u d bucket qurl CloudBehavior.ok
      ⟨some f⟩ w).1.2.getField "s3_key" = some (Json.str (u ++ "_" ++ sf f.filename)) := by
    intro u d w
    simp [upload_file, s3Upload, sqsSend, CloudBehavior.ok, if_neg hname,
      Json.getField, List.lookup]
  refine ⟨hbody u1 d1 w1, ⟨u1 ++ "_", rfl⟩, ?_⟩
  rw [hbody u1 d1 w1, hbody u2 d2 w2]
  intro hcontra
  have hkeys : u1 ++ "_" ++ sf f.filename = u2 ++ "_" ++ sf f.filename := by
    injection hcontra with hjson
    injection hjson
  exact unique_filename_injective u1 u2 (sf f.filename) hu hkeys

/-- Claim C2 witness: two concrete uploads of the same file with distinct
fresh tokens. -/
theorem upload_storage_key_format_witness :
    ((upload_file id "u1" "d" "bkt" "qu" CloudBehavior.ok
        ⟨some ⟨"a.txt", [7]⟩⟩ ⟨[], []⟩).1.2.getField "s3_key" =
      some (Json.str ("u1" ++ "_" ++ id "a.txt"))) ∧
    (∃ p, "u1" ++ "_" ++ id "a.txt" = p ++ id "a.txt") ∧
    ((upload_file id "u1" "d" "bkt" "qu" CloudBehavior.ok
        ⟨some ⟨"a.txt", [7]⟩⟩ ⟨[], []⟩).1.2.getField "s3_key" ≠
      (upload_file id "u2" "d" "bkt" "qu" CloudBehavior.ok
        ⟨some ⟨"a.txt", [7]⟩⟩ ⟨[], []⟩).1.2.getField "s3_key") :=
  upload_storage_key_format id "u1" "u2" "d" "d" "bkt" "qu"
    ⟨"a.txt", [7]⟩ ⟨[], []⟩ ⟨[], []⟩ (by decide) (by decide)

/-- Claim C8: for the same storage key, the message `trigger_job` submits has
the same body (`s3_key`, `bucket_name`, fixed `ETL_JOB` group tag) and the
same `MessageGroupId` as the message `upload_file` submits in its step 5;
only the deduplication token differs, each being the fresh token of its own
invocation, so with distinct fresh tokens the two responses carry distinct
message ids. -/
theorem trigger_matches_upload_message
    (sf : String → String) (u d1 d2 bucket qurl : String)
    (f : FilePart) (w w' : World) (hname : f.filename ≠ "") (hd : d1 ≠ d2) :
    ∃ mU mT : SqsMessage,
      (upload_file sf u d1 bucket qurl CloudBehavior.ok ⟨some f⟩ w).2.sqs =
        w.sqs ++ [mU] ∧
      (∃ rT wT, trigger_job d2 bucket qurl CloudBehavior.ok
          [("s3_key", Json.str (u ++ "_" ++ sf f.filename))] w' = .ok (rT, wT) ∧
        wT.sqs = w'.sqs ++ [mT] ∧
        rT.2.getField "sqs_message_id" ≠
          (upload_file sf u d1 bucket qurl CloudBehavior.ok
            ⟨some f⟩ w).1.2.getField "sqs_message_id") ∧
      mU.body = mT.body ∧
      mU.messageGroupId = mT.messageGroupId ∧
      mU.messageDeduplicationId = d1 ∧
      mT.messageDeduplicationId = d2 := by
  refine ⟨{ queueUrl := qurl,
            body := Json.obj
              [("s3_key", Json.str (u ++ "_" ++ sf f.filename)),
               ("bucket_name", Json.str bucket),
               ("MessageGroupId", Json.str "ETL_JOB")],
            messageGroupId := "etl-job", messageDeduplicationId := d1 },
          { queueUrl := qurl,
            body := Json.obj
              [("s3_key", Json.str (u ++ "_" ++ sf f.filename)),
               ("bucket_name", Json.str bucket),
               ("MessageGroupId", Json.str "ETL_JOB")],
            messageGroupId := "etl-job", messageDeduplicationId := d2 },
          ?_, ⟨?_, ?_, ?_, ?_, ?_⟩, rfl, rfl, rfl, rfl⟩
  · simp [upload_file, s3Upload, sqsSend, CloudBehavior.ok, if_neg hname]
  · exact (200, Json.obj
      [("message", Json.str "ETL job queued successfully!"),
       ("s3_key", Json.str (u ++ "_" ++ sf f.filename)),
       ("sqs_message_id", Json.str (assignMessageId d2))])
  · exact { w' with sqs := w'.sqs ++
      [{ queueUrl := qurl,
         body := Json.obj
           [("s3_key", Json.str (u ++ "_" ++ sf f.filename)),
            ("bucket_name", Json.str bucket),
            ("MessageGroupId", Json.str "ETL_JOB")],
         messageGroupId := "etl-job", messageDeduplicationId := d2 }] }
  · simp [trigger_job, sqsSend, CloudBehavior.ok, List.lookup]
  · rfl
  · have hup : (upload_file sf u d1 bucket qurl CloudBehavior.ok
        ⟨some f⟩ w).1.2.getField "sqs_message_id" =
          some (Json.str (assignMessageId d1)) := by
      simp [upload_file, s3Upload, sqsSend, CloudBehavior.ok, if_neg hname,
        Json.getField, List.lookup]
    rw [hup]
    have htr : (Json.obj
        [("message", Json.str "ETL job queued successfully!"),
         ("s3_key", Json.str (u ++ "_" ++ sf f.filename)),
         ("sqs_message_id", Json.str (assignMessageId d2))]).getField
          "sqs_message_id" = some (Json.str (assignMessageId d2)) := by
      simp [Json.getField, List.lookup]
    rw [show ((200, Json.obj
        [("message", Json.str "ETL job queued successfully!"),
         ("s3_key", Json.str (u ++ "_" ++ sf f.filename)),
         ("sqs_message_id", Json.str (assignMessageId d2))]) :
          HttpResponse).2 = Json.obj
        [("message", Json.str "ETL job queued successfully!"),
         ("s3_key", Json.str (u ++ "_" ++ sf f.filename)),
         ("sqs_message_id", Json.str (assignMessageId d2))] from rfl, htr]
    intro hcontra
    have hmid : assignMessageId d2 = assignMessageId d1 := by
      injection hcontra with h1
      injection h1
    exact hd (str_append_cancel_left "mid-" d2 d1 hmid).symm

/-- Claim C8 witness: concrete upload and trigger runs with distinct fresh
deduplication tokens. -/
theorem trigger_matches_upload_message_witness :
    ∃ mU mT : TaxiApp.SqsMessage,
      (upload_file id "u" "d1" "bkt" "qu" CloudBehavior.ok
        ⟨some ⟨"a.txt", [7]⟩⟩ ⟨[], []⟩).2.sqs = ([] : List SqsMessage) ++ [mU] ∧
      (∃ rT wT, trigger_job "d2" "bkt" "qu" CloudBehavior.ok
          [("s3_key", Json.str ("u" ++ "_" ++ id "a.txt"))] ⟨[], []⟩ = .ok (rT, wT) ∧
        wT.sqs = ([] : List SqsMessage) ++ [mT] ∧
        rT.2.getField "sqs_message_id" ≠
          (upload_file id "u" "d1" "bkt" "qu" CloudBehavior.ok
            ⟨some ⟨"a.txt", [7]⟩⟩ ⟨[], []⟩).1.2.getField "sqs_message_id") ∧
      mU.body = mT.body ∧
      mU.messageGroupId = mT.messageGroupId ∧
      mU.messageDeduplicationId = "d1" ∧
      mT.messageDeduplicationId = "d2" :=
  trigger_matches_upload_message id "u" "d1" "d2" "bkt" "qu"
    ⟨"a.txt", [7]⟩ ⟨[], []⟩ ⟨[], []⟩ (by decide) (by decide)

/-- Claim C3 counterexample: a `trigger_job` request whose JSON body lacks
`s3_key` does not produce any HTTP response at all — the subscript
`data['s3_key']` sits before the `try` block, so the `KeyError` escapes the
handler (modelled by the `Except.error` result), rather than a 400 JSON
envelope being returned. -/
theorem trigger_job_missing_key_counterexample :
    trigger_job "d" "bkt" "qu" CloudBehavior.ok [] ⟨[], []⟩ =
      Except.error "KeyError: s3_key" := rfl

/-- Claim C3 amended: when the body lacks `s3_key`, the handler raises an
uncaught `KeyError` that propagates to the transport layer; when the key is
present, the handler always produces an HTTP response, and a queue failure is
caught and converted to the 500 JSON error envelope. -/
theorem trigger_job_error_behavior
    (d bucket qurl : String) (b : CloudBehavior)
    (data : List (String × Json)) (w : World) :
    (data.lookup "s3_key" = none →
      trigger_job d bucket qurl b data w = Except.error "KeyError: s3_key") ∧
    (∀ v, data.lookup "s3_key" = some v →
      ∃ resp w', trigger_job d bucket qurl b data w = .ok (resp, w') ∧
        ∀ e, b.sqsSendFail = some e →
          resp = (500, Json.obj [("error", Json.str e)])) := by
  constructor
  · intro hmiss
    simp [trigger_job, hmiss]
  · intro v hv
    match hsf : b.sqsSendFail with
    | some e =>
      refine ⟨(500, Json.obj [("error", Json.str e)]), w, ?_, ?_⟩
      · simp [trigger_job, hv, sqsSend, hsf]
      · intro e' he'
        have h : e = e' := by injection he'
        subst h
        rfl
    | none =>
      refine ⟨(200, Json.obj
          [("message", Json.str "ETL job queued successfully!"),
           ("s3_key", v),
           ("sqs_message_id", Json.str (assignMessageId d))]),
        { w with sqs := w.sqs ++
          [{ queueUrl := qurl,
             body := Json.obj
               [("s3_key", v),
                ("bucket_name", Json.str bucket),
                ("MessageGroupId", Json.str "ETL_JOB")],
             messageGroupId := "etl-job", messageDeduplicationId := d }] }, ?_, ?_⟩
      · simp [trigger_job, hv, sqsSend, hsf]
      · intro e' he'
        exact absurd he' (by simp)

/-- Claim C3 amended witness: concrete runs of both branches. -/
theorem trigger_job_error_behavior_witness :
    (trigger_job "d" "bkt" "qu" CloudBehavior.ok [] ⟨[], []⟩ =
      Except.error "KeyError: s3_key") ∧
    (∃ resp w', trigger_job "d" "bkt" "qu" ⟨none, some "queue down"⟩
        [("s3_key", Json.str "k")] ⟨[], []⟩ = .ok (resp, w') ∧
      ∀ e, (⟨none, some "queue down"⟩ : CloudBehavior).sqsSendFail = some e →
        resp = (500, Json.obj [("error", Json.str e)])) :=
  ⟨(trigger_job_error_behavior "d" "bkt" "qu" CloudBehavior.ok [] ⟨[], []⟩).1 rfl,
   (trigger_job_error_behavior "d" "bkt" "qu" ⟨none, some "queue down"⟩
      [("s3_key", Json.str "k")] ⟨[], []⟩).2 (Json.str "k") rfl⟩

/-- Claim C6: on an empty trips relation, `get_trip_stats` answers HTTP 200
with `average_trip_duration` null (absent value, not zero), `total_days` 0,
and an empty `trips_per_day` list; no error is raised. -/
theorem get_trip_stats_empty :
    get_trip_stats [] =
      (200, Json.obj
        [("average_trip_duration", Json.null),
         ("total_days", Json.num 0),
         ("trips_per_day", Json.arr [])]) := by
  simp [get_trip_stats, avg_trip_duration, total_days, trips_per_day, distinctDays]

/-- Claim C7: in `get_trips`, a supplied pickup-longitude (resp. latitude)
filter means every record in the result has exactly that longitude (resp.
latitude), each filter acting independently; and the pickup-time range
filter applies only when both dates are supplied — if either one is absent
the result is as if no time filter existed at all. -/
theorem get_trips_filter_semantics (args : TripsQueryArgs) (db : List Trip) :
    (∀ lng, args.pickup_long = some lng →
      ∀ t ∈ get_trips args db, t.pickup_longitude = lng) ∧
    (∀ lat, args.pickup_lat = some lat →
      ∀ t ∈ get_trips args db, t.pickup_latitude = lat) ∧
    (args.end_date = none →
      get_trips args db = get_trips { args with start_date := none } db) ∧
    (args.start_date = none →
      get_trips args db = get_trips { args with end_date := none } db) := by
  obtain ⟨sd, ed, plong, plat⟩ := args
  refine ⟨?_, ?_, ?_, ?_⟩
  · intro lng hlng t ht
    subst hlng
    cases plat with
    | none =>
      simp [get_trips] at ht
      tauto
    | some lat =>
      simp [get_trips] at ht
      tauto
  · intro lat hlat t ht
    subst hlat
    cases plong with
    | none =>
      simp [get_trips] at ht
      tauto
    | some lng =>
      simp [get_trips] at ht
      tauto
  · intro hed
    subst hed
    cases sd <;> rfl
  · intro hsd
    subst hsd
    cases ed <;> rfl

/-- Claim C7 witness: concrete runs exercising each clause. -/
theorem get_trips_filter_semantics_witness :
    (∀ t ∈ get_trips ⟨none, none, some 5, none⟩
        [{ id := "1", vendor_id := some 1,
           pickup_datetime := ⟨2021, 1, 1, 0, 0, 0, 0⟩,
           dropoff_datetime := ⟨2021, 1, 1, 1, 0, 0, 0⟩,
           passenger_count := 1, pickup_longitude := 5, pickup_latitude := 2,
           dropoff_longitude := 0, dropoff_latitude := 0,
           store_and_fwd_flag := 'N', trip_duration := 60,
           trip_distance := 1 }], t.pickup_longitude = 5) ∧
    (get_trips ⟨some ⟨2021, 1, 1, 0, 0, 0, 0⟩, none, none, none⟩ [] =
      get_trips ⟨none, none, none, none⟩ []) :=
  ⟨(get_trips_filter_semantics ⟨none, none, some 5, none⟩ _).1 5 rfl,
   (get_trips_filter_semantics ⟨some ⟨2021, 1, 1, 0, 0, 0, 0⟩, none, none, none⟩
      []).2.2.1 rfl⟩

/-- Claim C10: the `allTrips` resolver guards the vendor filter with Python
truthiness, so `vendor_id = 0` behaves exactly like an absent `vendor_id`
(same limit and offset), rather than filtering down to trips with vendor
reference 0. -/
theorem resolve_all_trips_vendor_zero
    (db : List Trip) (limit offset : Nat) (sd ed : Option PyDateTime) :
    resolve_all_trips db limit offset (some 0) sd ed =
      resolve_all_trips db limit offset none sd ed := rfl

/-! ## Digit round-trip lemmas for the datetime embedding -/

/-- Reading back a printed digit gives the digit. -/
theorem readDigit_digitChar : ∀ d, d < 10 → readDigit (digitChar d) = some d := by
  decide

/-- Fixed-width rendering has the prescribed width. -/
theorem padDigits_length (k : Nat) : ∀ n, (padDigits k n).length = k := by
  induction k with
  | zero => intro n; rfl
  | succ k ih => intro n; simp [padDigits, ih]

/-- Reading `k` digits off a `k`-digit rendering recovers the value and
leaves the rest untouched. -/
theorem readNat_padDigits (k : Nat) :
    ∀ acc n rest, n < 10 ^ k →
      readNat k acc (padDigits k n ++ rest) = some (acc * 10 ^ k + n, rest) := by
  induction k with
  | zero =>
    intro acc n rest hn
    have hn0 : n = 0 := by omega
    subst hn0
    simp [padDigits, readNat]
  | succ k ih =>
    intro acc n rest hn
    have hten : (0 : Nat) < 10 ^ k := pow_pos (by norm_num) k
    have hdiv : n / 10 ^ k < 10 := Nat.div_lt_of_lt_mul (by rw [← pow_succ]; exact hn)
    have hmod : n % 10 ^ k < 10 ^ k := Nat.mod_lt _ hten
    show readNat (k + 1) acc
      (digitChar (n / 10 ^ k) :: (padDigits k (n % 10 ^ k) ++ rest)) = _
    simp only [readNat, readDigit_digitChar _ hdiv]
    rw [ih (acc * 10 + n / 10 ^ k) (n % 10 ^ k) rest hmod]
    have harith : (acc * 10 + n / 10 ^ k) * 10 ^ k + n % 10 ^ k
        = acc * 10 ^ (k + 1) + n := by
      have hdm := Nat.div_add_mod n (10 ^ k)
      calc (acc * 10 + n / 10 ^ k) * 10 ^ k + n % 10 ^ k
          = acc * (10 ^ k * 10) + (10 ^ k * (n / 10 ^ k) + n % 10 ^ k) := by ring
        _ = acc * (10 ^ k * 10) + n := by rw [hdm]
        _ = acc * 10 ^ (k + 1) + n := by rw [pow_succ]
    rw [harith]

/-- Specialization to a zero accumulator, the form the parsers use. -/
theorem readNat_pad (k n : Nat) (h : n < 10 ^ k) (rest : List Char) :
    readNat k 0 (padDigits k n ++ rest) = some (n, rest) := by
  have := readNat_padDigits k 0 n rest h
  simpa using this

/-- Reading a rendering with nothing after it. -/
theorem readNat_pad_exact (k n : Nat) (h : n < 10 ^ k) :
    readNat k 0 (padDigits k n) = some (n, []) := by
  have := readNat_pad k n h []
  rwa [List.append_nil] at this

/-- Parsing the serialized time portion recovers the time fields
(microsecond-zero case: no fraction is emitted and the parser fills 0). -/
theorem parseIsoTime_no_fraction (hh mi ss : Nat)
    (h1 : hh < 10 ^ 2) (h2 : mi < 10 ^ 2) (h3 : ss < 10 ^ 2) :
    parseIsoTime (padDigits 2 hh ++ ':' ::
      (padDigits 2 mi ++ ':' :: (padDigits 2 ss ++ []))) =
      some (hh, mi, ss, 0) := by
  unfold parseIsoTime
  rw [List.append_nil]
  simp [readNat_pad 2 hh h1, readNat_pad 2 mi h2, readNat_pad_exact 2 ss h3]

/-- Parsing the serialized time portion recovers the time fields (nonzero
microsecond: a six-digit fraction is emitted and parsed back). -/
theorem parseIsoTime_fraction (hh mi ss us : Nat)
    (h1 : hh < 10 ^ 2) (h2 : mi < 10 ^ 2) (h3 : ss < 10 ^ 2)
    (h4 : us < 10 ^ 6) :
    parseIsoTime (padDigits 2 hh ++ ':' ::
      (padDigits 2 mi ++ ':' :: (padDigits 2 ss ++ '.' :: padDigits 6 us))) =
      some (hh, mi, ss, us) := by
  unfold parseIsoTime
  simp [readNat_pad 2 hh h1, readNat_pad 2 mi h2, readNat_pad 2 ss h3,
    readNat_pad_exact 6 us h4, padDigits_length]

/-- The days-in-month table never exceeds 31. -/
theorem daysInMonth_le_31 (y m : Nat) : PyDateTime.daysInMonth y m ≤ 31 := by
  unfold PyDateTime.daysInMonth
  split_ifs <;> norm_num

/-- Parsing the full serialized form of a valid datetime, with any separator
character, recovers the datetime. -/
theorem fromisoformat_isoChars (sep : Char) (dt : PyDateTime) (h : dt.valid) :
    fromisoformatChars (isoChars sep dt) = some dt := by
  obtain ⟨hy1, hy2, hm1, hm2, hd1, hd2, hhh, hmm, hss, hus⟩ := h
  have hy : dt.year < 10 ^ 4 := lt_of_le_of_lt hy2 (by norm_num)
  have hmo : dt.month < 10 ^ 2 := lt_of_le_of_lt hm2 (by norm_num)
  have hdd : dt.day < 10 ^ 2 :=
    lt_of_le_of_lt (le_trans hd2 (daysInMonth_le_31 dt.year dt.month)) (by norm_num)
  have hh2 : dt.hour < 10 ^ 2 := lt_of_le_of_lt hhh (by norm_num)
  have hmi2 : dt.minute < 10 ^ 2 := lt_of_le_of_lt hmm (by norm_num)
  have hss2 : dt.second < 10 ^ 2 := lt_of_le_of_lt hss (by norm_num)
  have hus6 : dt.microsecond < 10 ^ 6 := lt_of_le_of_lt hus (by norm_num)
  have hvalid : dt.valid :=
    ⟨hy1, hy2, hm1, hm2, hd1, hd2, hhh, hmm, hss, hus⟩
  have htime : parseIsoTime (isoTimeChars dt.hour dt.minute dt.second
      dt.microsecond) = some (dt.hour, dt.minute, dt.second, dt.microsecond) := by
    by_cases hus0 : dt.microsecond = 0
    · rw [hus0]
      unfold isoTimeChars
      rw [if_pos rfl]
      exact parseIsoTime_no_fraction dt.hour dt.minute dt.second hh2 hmi2 hss2
    · unfold isoTimeChars
      rw [if_neg hus0]
      exact parseIsoTime_fraction dt.hour dt.minute dt.second dt.microsecond
        hh2 hmi2 hss2 hus6
  unfold isoChars fromisoformatChars
  simp [readNat_pad 4 dt.year hy, readNat_pad 2 dt.month hmo,
    readNat_pad 2 dt.day hdd, htime, mkValidDateTime, hvalid]

/-- Claim C9: the `DateTime` scalar round-trips — parsing the ISO-8601
serialization of any (valid, naive) datetime yields the original timestamp —
and every string `fromisoformat` rejects makes the value parser surface the
scalar-coercion error rather than a value. -/
theorem datetime_scalar_roundtrip (dt : PyDateTime) (h : dt.valid) :
    parse_datetime (serialize_datetime dt) = Except.ok dt ∧
    ∀ s, PyDateTime.fromisoformat s = none →
      parse_datetime s =
        Except.error "Invalid DateTime format. Expected ISO 8601 string." := by
  constructor
  · unfold parse_datetime serialize_datetime PyDateTime.isoformat
      PyDateTime.fromisoformat
    rw [show (String.mk (isoChars 'T' dt)).data = isoChars 'T' dt from rfl]
    rw [fromisoformat_isoChars 'T' dt h]
  · intro s hs
    unfold parse_datetime
    rw [hs]

/-- Claim C9 witness: a concrete valid datetime round-trips, and a concrete
non-ISO string is rejected with the coercion error. -/
theorem datetime_scalar_roundtrip_witness :
    (⟨2021, 3, 14, 15, 9, 26, 535897⟩ : PyDateTime).valid ∧
    (parse_datetime (serialize_datetime ⟨2021, 3, 14, 15, 9, 26, 535897⟩) =
      Except.ok ⟨2021, 3, 14, 15, 9, 26, 535897⟩ ∧
    PyDateTime.fromisoformat "definitely not a datetime" = none ∧
    parse_datetime "definitely not a datetime" =
      Except.error "Invalid DateTime format. Expected ISO 8601 string.") :=
  ⟨by decide,
   (datetime_scalar_roundtrip ⟨2021, 3, 14, 15, 9, 26, 535897⟩ (by decide)).1,
   by decide,
   (datetime_scalar_roundtrip ⟨2021, 3, 14, 15, 9, 26, 535897⟩ (by decide)).2
     "definitely not a datetime" (by decide)⟩

end TaxiApp
